import Mathlib

/-!
Shallow embedding of the PR-analysis / PR-feedback engine of the
Github_MCP_Server repository.

Sources embedded:
  * `src/services/pr-analysis-service.ts` (normalizer): `analyzeFiles`,
    `generateDiffSummary`, `detectLanguage`, `categorizeFileSize`,
    `assessChangeComplexity`, `isMergeCommit`, `extractLinkedIssues`.
  * `src/services/feedback-service.ts` (scoring engine): `generatePRFeedback`
    and all its helpers.

Modelling conventions:
  * JavaScript strings are Lean `String`s; character-level operations
    (`toLowerCase`, `includes`, `startsWith`, `endsWith`, regex tests) are
    modelled on `List Char`.  All texts occurring in the repository are
    ASCII, where `Char.toLower` agrees with JS `toLowerCase`.
  * JavaScript `number` is modelled as `ℚ` (the arithmetic performed by the
    engine — integer deductions, halves, tenths, ratios with denominator
    at most 5 — is exact in ℚ and in binary floating point alike).
  * JS regular-expression tests are modelled by equivalent explicit
    scanners, documented at each definition.
-/

namespace GithubMCP

/-! ## Character / string helpers (JS semantics) -/

/-- JS `\s` whitespace class (the ASCII part plus NBSP; other Unicode space
characters never occur in the repository's inputs of interest). -/
def isJsWs (c : Char) : Bool :=
  c = ' ' || c = '\t' || c = '\n' || c = '\r' || c = '\x0b' || c = '\x0c' || c = ' '

/-- JS `String.prototype.toLowerCase` on ASCII text. -/
def lowerList (l : List Char) : List Char := l.map Char.toLower

/-- Substring containment (JS `String.prototype.includes`), case-sensitive. -/
def containsSub (hay needle : List Char) : Bool :=
  (hay.tails).any (fun t => needle.isPrefixOf t)

/-- JS `hay.includes(needle)`. -/
def strContains (hay needle : String) : Bool :=
  containsSub hay.data needle.data

/-- Case-insensitive containment: JS `/needle/i.test(hay)` for a literal
`needle` (given here in lower case). -/
def containsCI (hay needle : String) : Bool :=
  containsSub (lowerList hay.data) needle.data

/-- JS `hay.startsWith(pre)`. -/
def strStartsWith (hay pre : String) : Bool :=
  pre.data.isPrefixOf hay.data

/-- JS `hay.endsWith(suf)`. -/
def strEndsWith (hay suf : String) : Bool :=
  suf.data.isSuffixOf hay.data

/-- JS `String.prototype.trim` (strip `\s` from both ends). -/
def jsTrim (s : String) : String :=
  ⟨((s.data.dropWhile isJsWs).reverse.dropWhile isJsWs).reverse⟩

/-- JS `Math.round`: round half toward positive infinity. -/
def jsRound (x : ℚ) : ℤ := ⌊x + 1 / 2⌋

/-- JS `Math.min` on two (non-NaN) numbers. -/
def jsMin (a b : ℚ) : ℚ := if a ≤ b then a else b

/-- JS `Math.max` on two (non-NaN) numbers. -/
def jsMax (a b : ℚ) : ℚ := if a ≤ b then b else a

/-- Clamp to the interval `[0, 10]`: `Math.max(0, Math.min(10, x))`. -/
def clamp010 (x : ℚ) : ℚ := jsMax 0 (jsMin 10 x)

/-- Append keeping first occurrences only (JS `Array.prototype.push` guarded by
`includes`, and also the insertion-order semantics of `new Set`). -/
def pushUnique {α : Type} [DecidableEq α] (acc : List α) (a : α) : List α :=
  if a ∈ acc then acc else acc ++ [a]

/-- First-occurrence deduplication: JS `[...new Set(l)]`. -/
def dedupFirst {α : Type} [DecidableEq α] (l : List α) : List α :=
  l.foldl pushUnique []

/-! ## Data model (`src/types/api.ts`, `src/types/github.ts`) -/

/-- The letter grade of `QualityAssessment.grade`. -/
inductive Grade | A | B | C | D | F
deriving DecidableEq, Repr

/-- Risk / severity levels (`SecurityAssessment.risk_level`,
`SecurityVulnerability.severity`). -/
inductive RiskLevel | low | medium | high | critical
deriving DecidableEq, Repr

/-- The `DiffSummary.change_complexity` bucket. -/
inductive ChangeComplexity | low | medium | high | very_high
deriving DecidableEq, Repr

/-- The `PRFileChange.size_category` bucket. -/
inductive SizeCategory | small | medium | large | xl
deriving DecidableEq, Repr

/-- Three-valued level used by `cognitive_complexity` and `change_risk`. -/
inductive Level3 | low | medium | high
deriving DecidableEq, Repr

/-- The state of a pull request. -/
inductive PRState | opened | closed | merged
deriving DecidableEq, Repr

/-- Per-file change status. -/
inductive FileStatus | added | modified | removed | renamed
deriving DecidableEq, Repr

/-- The `FocusArea` union type of `src/types/api.ts`. -/
inductive FocusArea
  | performance | security | accessibility | maintainability
  | testing | documentation | architecture | code_style
deriving DecidableEq, Repr

/-- A raw file entry of the GitHub API (`GitHubFile`, `src/types/github.ts`);
only the fields the embedded functions read are kept. -/
structure GitHubFile where
  filename : String
  status : FileStatus
  additions : Nat
  deletions : Nat
  patch : Option String
deriving DecidableEq, Repr

/-- `PRFileChange` of `src/types/api.ts`. -/
structure PRFileChange where
  filename : String
  status : FileStatus
  additions : Nat
  deletions : Nat
  changes : Nat
  patch : Option String
  language : String
  size_category : SizeCategory
deriving DecidableEq, Repr

/-- `PRCommitInfo` of `src/types/api.ts`. -/
structure PRCommitInfo where
  sha : String
  message : String
  author : String
  date : String
  url : String
  is_merge_commit : Bool
  verified : Bool
deriving DecidableEq, Repr

/-- `DiffSummary` of `src/types/api.ts`. -/
structure DiffSummary where
  total_additions : Nat
  total_deletions : Nat
  total_changes : Nat
  files_count : Nat
  languages_affected : List String
  change_complexity : ChangeComplexity
deriving DecidableEq, Repr

/-- `PRMetadata` of `src/types/api.ts`. -/
structure PRMetadata where
  created_at : String
  updated_at : String
  merged_at : Option String
  closed_at : Option String
  labels : List String
  assignees : List String
  reviewers : List String
  milestone : Option String
  linked_issues : List Nat
deriving DecidableEq, Repr

/-- `PRAnalysis` of `src/types/api.ts` (the optional `reviews` field is read by
no embedded function and is omitted). -/
structure PRAnalysis where
  title : String
  description : String
  author : String
  state : PRState
  draft : Bool
  files_changed : List PRFileChange
  commits : List PRCommitInfo
  diff_summary : DiffSummary
  metadata : PRMetadata
deriving DecidableEq, Repr

/-- `QualityAssessment` of `src/types/api.ts`. -/
structure QualityAssessment where
  score : ℚ
  grade : Grade
  comments : List String
  strengths : List String
  concerns : List String
deriving DecidableEq, Repr

/-- `SecurityVulnerability` of `src/types/api.ts`. -/
structure SecurityVulnerability where
  type : String
  severity : RiskLevel
  description : String
  file : String
  line_number : Option Nat
  recommendation : String
deriving DecidableEq, Repr

/-- `SecurityAssessment` of `src/types/api.ts`. -/
structure SecurityAssessment where
  risk_level : RiskLevel
  considerations : List String
  vulnerabilities_found : List SecurityVulnerability
  recommendations : List String
deriving DecidableEq, Repr

/-- The anonymous `best_practices` record of `PRFeedback`. -/
structure BestPractices where
  followed : List String
  needs_improvement : List String
deriving DecidableEq, Repr

/-- The anonymous `complexity_analysis` record of `PRFeedback`. -/
structure ComplexityAnalysis where
  cognitive_complexity : Level3
  change_risk : Level3
  testing_requirements : List String
deriving DecidableEq, Repr

/-- `PRFeedback` of `src/types/api.ts`; the TS `Record<FocusArea, string[]>`
is modelled as an association list. -/
structure PRFeedback where
  overall_assessment : String
  summary_score : ℚ
  code_quality : QualityAssessment
  security_assessment : SecurityAssessment
  suggestions : List String
  best_practices : BestPractices
  focus_area_analysis : Option (List (FocusArea × List String))
  estimated_review_time : ℤ
  complexity_analysis : ComplexityAnalysis
deriving DecidableEq, Repr

/-! ## Normalizer (`PRAnalysisService`, `src/services/pr-analysis-service.ts`) -/

/-- The extension-to-language table of `detectLanguage`. -/
def languageMap : List (String × String) :=
  [("ts", "TypeScript"), ("tsx", "TypeScript"), ("js", "JavaScript"),
   ("jsx", "JavaScript"), ("py", "Python"), ("java", "Java"), ("cpp", "C++"),
   ("c", "C"), ("cs", "C#"), ("php", "PHP"), ("rb", "Ruby"), ("go", "Go"),
   ("rs", "Rust"), ("kt", "Kotlin"), ("swift", "Swift"), ("dart", "Dart"),
   ("scala", "Scala"), ("clj", "Clojure"), ("hs", "Haskell"), ("elm", "Elm"),
   ("vue", "Vue"), ("svelte", "Svelte"), ("html", "HTML"), ("css", "CSS"),
   ("scss", "SCSS"), ("sass", "Sass"), ("less", "Less"), ("json", "JSON"),
   ("yaml", "YAML"), ("yml", "YAML"), ("xml", "XML"), ("md", "Markdown"),
   ("sql", "SQL"), ("sh", "Shell"), ("bash", "Bash"), ("ps1", "PowerShell"),
   ("dockerfile", "Docker")]

/-- Characters after the last `'.'` (the whole string when there is no dot):
exactly `filename.split('.').pop()` in JS, where `split` always returns a
nonempty array whose last element is the text after the final separator. -/
def lastDotSegment (l : List Char) : List Char :=
  (l.foldl (fun acc c => if c = '.' then [] else c :: acc) []).reverse

/-- `detectLanguage`: `filename.split('.').pop()?.toLowerCase()` looked up in
the language map, defaulting to `"unknown"`. -/
def detectLanguage (filename : String) : String :=
  let extension := String.mk (lowerList (lastDotSegment filename.data))
  ((languageMap.lookup extension).getD "unknown")

/-- `categorizeFileSize`. -/
def categorizeFileSize (changes : Nat) : SizeCategory :=
  if changes ≤ 10 then SizeCategory.small
  else if changes ≤ 50 then SizeCategory.medium
  else if changes ≤ 200 then SizeCategory.large
  else SizeCategory.xl

/-- `assessChangeComplexity`: four tiers tried in order, first match wins.
`changesPerFile` is `totalChanges / fileCount` in ℚ; Lean's `x / 0 = 0`
differs from JS `NaN` only when `fileCount = 0 < totalChanges`, a combination
`generateDiffSummary` never produces (zero files have zero changes). -/
def assessChangeComplexity (totalChanges fileCount : Nat) : ChangeComplexity :=
  let changesPerFile : ℚ := (totalChanges : ℚ) / (fileCount : ℚ)
  if totalChanges ≤ 50 ∧ fileCount ≤ 5 then ChangeComplexity.low
  else if totalChanges ≤ 200 ∧ fileCount ≤ 15 ∧ changesPerFile ≤ 50 then
    ChangeComplexity.medium
  else if totalChanges ≤ 500 ∧ fileCount ≤ 25 then ChangeComplexity.high
  else ChangeComplexity.very_high

/-- `isMergeCommit`: lower-cased message starts with `"merge "`, or the
original message contains (case-sensitively) `"Merge pull request"` or
`"Merge branch"`. -/
def isMergeCommit (message : String) : Bool :=
  strStartsWith (String.mk (lowerList message.data)) "merge " ||
  strContains message "Merge pull request" ||
  strContains message "Merge branch"

/-- `analyzeFiles`: normalize raw GitHub files into `PRFileChange`s. -/
def analyzeFiles (files : List GitHubFile) : List PRFileChange :=
  files.map fun file =>
    let totalChanges := file.additions + file.deletions
    { filename := file.filename
      status := file.status
      additions := file.additions
      deletions := file.deletions
      changes := totalChanges
      patch := file.patch
      language := detectLanguage file.filename
      size_category := categorizeFileSize totalChanges }

/-- `generateDiffSummary`. -/
def generateDiffSummary (files : List GitHubFile) : DiffSummary :=
  let totalAdditions := files.foldl (fun sum file => sum + file.additions) 0
  let totalDeletions := files.foldl (fun sum file => sum + file.deletions) 0
  let totalChanges := totalAdditions + totalDeletions
  let languagesAffected :=
    dedupFirst ((files.map (fun file => detectLanguage file.filename)).filter
      (fun lang => lang ≠ "unknown"))
  { total_additions := totalAdditions
    total_deletions := totalDeletions
    total_changes := totalChanges
    files_count := files.length
    languages_affected := languagesAffected
    change_complexity := assessChangeComplexity totalChanges files.length }

/-! ### `extractLinkedIssues`

The TS code runs two global regexes over the description —
`/(?:close[sd]?|fix(?:e[sd])?|resolve[sd]?)\s+#(\d+)/gi` and then `/#(\d+)/g` —
collecting each captured number with an `includes` guard (first occurrence
kept), and finally sorts ascending with `(a, b) => a - b`.  The regexes are
modelled by explicit scanners: a global regex repeatedly finds the leftmost
match from the current position and resumes after it, which is the same as
advancing one character on failure and past the match on success. -/

/-- Longest digit prefix and the rest (greedy `\d+`). -/
def takeDigits : List Char → List Char × List Char
  | [] => ([], [])
  | c :: rest =>
    if c.isDigit then
      let p := takeDigits rest
      (c :: p.1, p.2)
    else ([], c :: rest)

/-- `parseInt` on a digit string. -/
def digitsVal (ds : List Char) : Nat :=
  ds.foldl (fun n c => n * 10 + (c.toNat - '0'.toNat)) 0

/-- Match `\s+#(\d+)` at the head of `l`; on success return the captured
number and the remaining characters.  (`\s+` is greedy; since no whitespace
character is `'#'`, the greedy span is exact.) -/
def matchWsHash (l : List Char) : Option (Nat × List Char) :=
  let ws := l.takeWhile isJsWs
  let r := l.dropWhile isJsWs
  if ws.isEmpty then none
  else
    match r with
    | '#' :: r2 =>
      let p := takeDigits r2
      if p.1.isEmpty then none else some (digitsVal p.1, p.2)
    | _ => none

/-- Strip a (lower-case) literal from the head of `l`, case-insensitively. -/
def stripCI : List Char → List Char → Option (List Char)
  | [], l => some l
  | _ :: _, [] => none
  | k :: ks, c :: cs => if c.toLower = k then stripCI ks cs else none

/-- Continue a `close`/`resolve` match: optional greedy `[sd]` (with
backtracking), then `\s+#(\d+)`. -/
def afterSD : List Char → Option (Nat × List Char)
  | [] => none
  | c :: rest =>
    if c.toLower = 's' || c.toLower = 'd' then
      (matchWsHash rest) <|> matchWsHash (c :: rest)
    else matchWsHash (c :: rest)

/-- Continue a `fix` match: optional greedy `e[sd]` (with backtracking), then
`\s+#(\d+)`. -/
def afterESD : List Char → Option (Nat × List Char)
  | e :: c :: rest =>
    if e.toLower = 'e' && (c.toLower = 's' || c.toLower = 'd') then
      (matchWsHash rest) <|> matchWsHash (e :: c :: rest)
    else matchWsHash (e :: c :: rest)
  | l => matchWsHash l

/-- Try the first-pass regex at the current position. -/
def tryPass1At (l : List Char) : Option (Nat × List Char) :=
  ((stripCI "close".data l).bind afterSD) <|>
  ((stripCI "fix".data l).bind afterESD) <|>
  ((stripCI "resolve".data l).bind afterSD)

/-- Scan for all first-pass matches.  `fuel` bounds the number of steps; every
step either consumes the head character or a whole match (at least one
character), so `fuel = l.length` scans `l` completely. -/
def scanPass1 : Nat → List Char → List Nat
  | 0, _ => []
  | _, [] => []
  | fuel + 1, c :: rest =>
    match tryPass1At (c :: rest) with
    | some p => p.1 :: scanPass1 fuel p.2
    | none => scanPass1 fuel rest

/-- Scan for all `#(\d+)` matches (second pass), fuelled like `scanPass1`. -/
def scanPass2 : Nat → List Char → List Nat
  | 0, _ => []
  | _, [] => []
  | fuel + 1, c :: rest =>
    if c = '#' then
      let p := takeDigits rest
      if p.1.isEmpty then scanPass2 fuel rest
      else digitsVal p.1 :: scanPass2 fuel p.2
    else scanPass2 fuel rest

/-- `extractLinkedIssues`: both regex passes in order, first-occurrence
deduplication (`includes` guard), then ascending sort (`(a, b) => a - b`;
on a duplicate-free list every ascending sort yields the same output, so
insertion sort models it faithfully). -/
def extractLinkedIssues (body : String) : List Nat :=
  let found := scanPass1 body.data.length body.data ++
    scanPass2 body.data.length body.data
  let issues := found.foldl pushUnique ([] : List Nat)
  List.insertionSort (· ≤ ·) issues

/-! ## Scoring engine (`FeedbackService`, `src/services/feedback-service.ts`) -/

/-- `isTestFile`: the anchored regex
`/\.(test|spec)\.(ts|js|tsx|jsx|py|java|rb|go|rs)$/` is equivalent to ending
in one of the 18 listed suffixes; plus the three path-segment checks. -/
def isTestFile (filename : String) : Bool :=
  [".test.ts", ".test.js", ".test.tsx", ".test.jsx", ".test.py", ".test.java",
   ".test.rb", ".test.go", ".test.rs", ".spec.ts", ".spec.js", ".spec.tsx",
   ".spec.jsx", ".spec.py", ".spec.java", ".spec.rb", ".spec.go",
   ".spec.rs"].any (fun suf => strEndsWith filename suf) ||
  strContains filename "/test/" ||
  strContains filename "/__tests__/" ||
  strContains filename "/tests/"

/-- `isSecuritySensitiveFile`: any of the ten case-insensitive patterns. -/
def isSecuritySensitiveFile (filename : String) : Bool :=
  ["auth", "password", "token", "secret", "credential", "security",
   "permission", "privilege", "crypto", "encrypt"].any
    (fun pat => containsCI filename pat)

/-- `isConfigurationFile`. -/
def isConfigurationFile (filename : String) : Bool :=
  strContains filename "config" ||
  strEndsWith filename ".env" ||
  strEndsWith filename ".yml" ||
  strEndsWith filename ".yaml" ||
  strEndsWith filename ".properties"

/-- `isDependencyFile`: exact membership in the manifest-name list. -/
def isDependencyFile (filename : String) : Bool :=
  ["package.json", "yarn.lock", "package-lock.json", "requirements.txt",
   "Pipfile", "poetry.lock", "Cargo.toml", "Cargo.lock", "go.mod",
   "go.sum"].contains filename

/-- `hasSuspiciousContent`: the six case-insensitive secret-leak patterns;
`api[_-]?key` and `private[_-]?key` each expand to three literals. -/
def hasSuspiciousContent (text : String) : Bool :=
  containsCI text "password" || containsCI text "secret" ||
  containsCI text "token" ||
  containsCI text "apikey" || containsCI text "api_key" ||
  containsCI text "api-key" ||
  containsCI text "privatekey" || containsCI text "private_key" ||
  containsCI text "private-key" ||
  containsCI text "credential"

/-- `hasUIChanges`: anchored extension regex over the changed files. -/
def hasUIChanges (prAnalysis : PRAnalysis) : Bool :=
  prAnalysis.files_changed.any fun file =>
    [".tsx", ".jsx", ".vue", ".svelte", ".html", ".css", ".scss"].any
      (fun suf => strEndsWith file.filename suf)

/-- `hasNewFeatures`: a commit message starting (case-insensitively) with
`feat` (the `feature` alternative is subsumed), or containing `add`/`new`. -/
def hasNewFeatures (prAnalysis : PRAnalysis) : Bool :=
  prAnalysis.commits.any fun commit =>
    strStartsWith (String.mk (lowerList commit.message.data)) "feat" ||
    containsCI commit.message "add" || containsCI commit.message "new"

/-- `hasBreakingChanges`: case-sensitive `includes` of `BREAKING` or `!:`. -/
def hasBreakingChanges (prAnalysis : PRAnalysis) : Bool :=
  prAnalysis.commits.any fun commit =>
    strContains commit.message "BREAKING" || strContains commit.message "!:"

/-- Tail of the conventional-commit regex after the type keyword:
`: .+` directly (the `.` class excludes newline). -/
def convColonTail : List Char → Bool
  | ':' :: ' ' :: c :: _ => c ≠ '\n'
  | _ => false

/-- Scan for the closing parenthesis of the `(\(.+\))?` scope: at least one
non-newline character, then `)` followed by `: .+`.  `consumed` records
whether the scope body is nonempty yet; the regex matches iff some split
works, which this search decides. -/
def convScopeScan : List Char → Bool → Bool
  | [], _ => false
  | c :: rest, consumed =>
    (consumed && c = ')' && convColonTail rest) ||
    (c ≠ '\n' && convScopeScan rest true)

/-- `isConventionalCommit`:
`/^(feat|fix|docs|style|refactor|test|chore|perf|ci|build|revert)(\(.+\))?: .+/`
(case-sensitive, anchored at the start only). -/
def isConventionalCommit (message : String) : Bool :=
  ["feat", "fix", "docs", "style", "refactor", "test", "chore", "perf", "ci",
   "build", "revert"].any fun kw =>
    kw.data.isPrefixOf message.data &&
    (let rest := message.data.drop kw.length
     convColonTail rest ||
     (match rest with
      | '(' :: r => convScopeScan r false
      | _ => false))

/-- `isDescriptiveTitle`: the trimmed title must not equal (anchored `^...$`,
case-insensitive) one of the eight non-descriptive words. -/
def isDescriptiveTitle (title : String) : Bool :=
  !(["fix", "update", "change", "modify", "wip", "temp", "test",
     "debug"].contains (String.mk (lowerList (jsTrim title).data)))

/-- `scoreToGrade`. -/
def scoreToGrade (score : ℚ) : Grade :=
  if score ≥ 9 then Grade.A
  else if score ≥ 7 then Grade.B
  else if score ≥ 5 then Grade.C
  else if score ≥ 3 then Grade.D
  else Grade.F

/-- `calculateSecurityRiskLevel`. -/
def calculateSecurityRiskLevel (considerationsCount vulnerabilitiesCount : Nat) :
    RiskLevel :=
  if vulnerabilitiesCount > 0 then RiskLevel.high
  else if considerationsCount ≥ 3 then RiskLevel.medium
  else if considerationsCount ≥ 1 then RiskLevel.low
  else RiskLevel.low

/-- The `hasDocumentation` predicate inside `assessCodeQuality`. -/
def hasDocFile (prAnalysis : PRAnalysis) : Bool :=
  prAnalysis.files_changed.any fun file =>
    strEndsWith file.filename ".md" || strContains file.filename "README" ||
    strContains file.filename "docs/"

/-- The `hasTests` predicate inside `assessCodeQuality`. -/
def hasTestFile (prAnalysis : PRAnalysis) : Bool :=
  prAnalysis.files_changed.any fun file => isTestFile file.filename

/-- The `largeFiles` count inside `assessCodeQuality`. -/
def largeFilesCount (prAnalysis : PRAnalysis) : Nat :=
  (prAnalysis.files_changed.filter
    (fun f => f.size_category = SizeCategory.xl)).length

/-- The code-quality score of `assessCodeQuality` before clamping.  The source
interleaves the deductions with the strength/concern pushes in `if`/`else if`
chains, one per check; each deduction fires exactly when its condition holds
(the `else if` branches never deduct), so the score is this flattened sum. -/
def qualityScoreRaw (prAnalysis : PRAnalysis) : ℚ :=
  10 - (if prAnalysis.diff_summary.total_changes > 500 then 2 else 0)
     - (if prAnalysis.files_changed.length > 20 then 1 else 0)
     - (if hasTestFile prAnalysis = false ∧
          prAnalysis.diff_summary.total_changes > 50 then 2 else 0)
     - (if hasDocFile prAnalysis = false ∧
          prAnalysis.diff_summary.total_changes > 100 then 1 else 0)
     - (if prAnalysis.description.length < 50 then 1 else 0)
     - (if prAnalysis.commits.length > 20 then 1 else 0)
     - (if largeFilesCount prAnalysis > 0 then 1 else 0)

/-- `assessCodeQuality`.  The strengths/concerns lists are assembled in the
source's push order; each `else if` strength condition is simplified using the
disjointness of the paired conditions (e.g. `total_changes > 500` and
`total_changes < 50` cannot both hold, so the `else` is redundant). -/
def assessCodeQuality (prAnalysis : PRAnalysis) : QualityAssessment :=
  let diff_summary := prAnalysis.diff_summary
  let files_changed := prAnalysis.files_changed
  let commits := prAnalysis.commits
  let description := prAnalysis.description
  let strengths : List String :=
    (if diff_summary.total_changes < 50 then
      ["Focused PR with manageable scope"] else []) ++
    (if files_changed.length ≤ 5 then
      ["Limited number of files changed, easier to review"] else []) ++
    (if hasTestFile prAnalysis then ["Includes test files"] else []) ++
    (if hasDocFile prAnalysis then ["Includes documentation updates"] else []) ++
    (if description.length > 200 then
      ["Comprehensive PR description provided"] else []) ++
    (if commits.length ≤ 5 then ["Reasonable number of commits"] else [])
  let concerns : List String :=
    (if diff_summary.total_changes > 500 then
      ["Large PR with many changes - consider breaking into smaller PRs"]
     else []) ++
    (if files_changed.length > 20 then
      ["Many files changed - ensure changes are related and cohesive"]
     else []) ++
    (if hasTestFile prAnalysis = false ∧ diff_summary.total_changes > 50 then
      ["No test files detected - consider adding tests for new functionality"]
     else []) ++
    (if hasDocFile prAnalysis = false ∧ diff_summary.total_changes > 100 then
      ["Consider updating documentation for significant changes"] else []) ++
    (if description.length < 50 then
      ["PR description is brief - consider adding more context"] else []) ++
    (if commits.length > 20 then
      ["Many commits - consider squashing related commits"] else []) ++
    (if largeFilesCount prAnalysis > 0 then
      [toString (largeFilesCount prAnalysis) ++
        " files with extensive changes - review carefully"] else [])
  let finalScore := clamp010 (qualityScoreRaw prAnalysis)
  { score := finalScore
    grade := scoreToGrade finalScore
    comments := strengths.map (fun s => "✅ " ++ s) ++ concerns
    strengths := strengths
    concerns := concerns }

/-- `analyzeSecurityConsiderations`. -/
def analyzeSecurityConsiderations (prAnalysis : PRAnalysis) : SecurityAssessment :=
  let securitySensitiveFiles := prAnalysis.files_changed.filter
    (fun file => isSecuritySensitiveFile file.filename)
  let configFiles := prAnalysis.files_changed.filter
    (fun file => isConfigurationFile file.filename)
  let dependencyFiles := prAnalysis.files_changed.filter
    (fun file => isDependencyFile file.filename)
  let suspiciousCommits := prAnalysis.commits.filter
    (fun commit => hasSuspiciousContent commit.message)
  let considerations : List String :=
    (if securitySensitiveFiles.length > 0 then
      ["Security-sensitive files modified: " ++
        String.intercalate ", " (securitySensitiveFiles.map (fun f => f.filename))]
     else []) ++
    (if configFiles.length > 0 then
      ["Configuration files modified - verify no sensitive data is exposed"]
     else []) ++
    (if dependencyFiles.length > 0 then
      ["Dependencies modified - ensure packages are from trusted sources"]
     else [])
  let recommendations : List String :=
    (if securitySensitiveFiles.length > 0 then
      ["Ensure thorough security review and testing"] else []) ++
    (if configFiles.length > 0 then
      ["Review configuration changes for security implications"] else []) ++
    (if dependencyFiles.length > 0 then
      ["Run security audit on new dependencies"] else [])
  let vulnerabilities : List SecurityVulnerability :=
    if suspiciousCommits.length > 0 then
      [{ type := "Potential secret in commit message"
         severity := RiskLevel.medium
         description := "Commit messages may contain sensitive information"
         file := "commit-messages"
         line_number := none
         recommendation := "Review commit messages for exposed secrets" }]
    else []
  { risk_level :=
      calculateSecurityRiskLevel considerations.length vulnerabilities.length
    considerations := considerations
    vulnerabilities_found := vulnerabilities
    recommendations := recommendations }

/-- The per-area `switch` inside `generateSuggestions`. -/
def focusAreaSuggestions (prAnalysis : PRAnalysis) (area : FocusArea) :
    List String :=
  match area with
  | FocusArea.performance =>
    ["Consider adding performance benchmarks for critical code paths",
     "Review for potential memory leaks or inefficient algorithms"]
  | FocusArea.accessibility =>
    if hasUIChanges prAnalysis then
      ["Verify accessibility compliance (ARIA labels, keyboard navigation)",
       "Test with screen readers and accessibility tools"]
    else []
  | FocusArea.documentation =>
    ["Update API documentation if public interfaces changed",
     "Consider adding inline code comments for complex logic"]
  | FocusArea.testing =>
    ["Add unit tests for new functionality",
     "Consider integration tests for complex workflows"]
  | _ => []

/-- `generateSuggestions` (an `undefined` focus-area list iterates nothing). -/
def generateSuggestions (prAnalysis : PRAnalysis)
    (focusAreas : Option (List FocusArea)) : List String :=
  let fromFocus := (focusAreas.getD []).foldl
    (fun acc area => acc ++ focusAreaSuggestions prAnalysis area) []
  let general : List String :=
    (if hasNewFeatures prAnalysis then
      ["Consider adding feature flags for gradual rollout",
       "Ensure error handling covers edge cases for new functionality"]
     else []) ++
    (if hasBreakingChanges prAnalysis then
      ["Update migration guide for breaking changes",
       "Consider deprecation warnings before removing functionality"]
     else []) ++
    (if prAnalysis.diff_summary.change_complexity = ChangeComplexity.very_high
     then
      ["Consider breaking this PR into smaller, focused changes",
       "Add comprehensive testing for complex changes"]
     else [])
  dedupFirst (fromFocus ++ general)

/-- `checkBestPractices`.  Each check appends to exactly one of the two lists
(`followed` on success), except the file-count check (no `else` branch) and
the draft check (`followed` only). -/
def checkBestPractices (prAnalysis : PRAnalysis) : BestPractices :=
  let hasConventionalCommits := prAnalysis.commits.all
    (fun commit => isConventionalCommit commit.message)
  let titleOk := decide (prAnalysis.title.length > 10) &&
    isDescriptiveTitle prAnalysis.title
  { followed :=
      (if hasConventionalCommits then
        ["Follows conventional commit format"] else []) ++
      (if titleOk then ["PR has descriptive title"] else []) ++
      (if prAnalysis.files_changed.length ≤ 15 then
        ["Reasonable number of files changed"] else []) ++
      (if prAnalysis.metadata.linked_issues.length > 0 then
        ["Links to related issues"] else []) ++
      (if prAnalysis.draft ∧ prAnalysis.diff_summary.total_changes > 200 then
        ["Uses draft status for work-in-progress"] else [])
    needs_improvement :=
      (if hasConventionalCommits then []
       else ["Consider using conventional commit format"]) ++
      (if titleOk then [] else ["Consider making PR title more descriptive"]) ++
      (if prAnalysis.metadata.linked_issues.length > 0 then []
       else ["Consider linking to related issue or ticket"]) }

/-- `calculateCognitiveComplexity`. -/
def calculateCognitiveComplexity (prAnalysis : PRAnalysis) : Level3 :=
  let complexityScore := prAnalysis.diff_summary.total_changes +
    prAnalysis.diff_summary.files_count * 10
  if complexityScore > 500 then Level3.high
  else if complexityScore > 200 then Level3.medium
  else Level3.low

/-- `assessChangeRisk`.  The fourth factor transliterates the source's
`commits.some(c => this.hasBreakingChanges(prAnalysis))`, whose callback
ignores its argument. -/
def assessChangeRisk (prAnalysis : PRAnalysis) : Level3 :=
  let riskFactors :=
    (([decide (prAnalysis.diff_summary.total_changes > 300),
       decide (prAnalysis.files_changed.length > 15),
       prAnalysis.files_changed.any
         (fun f => isSecuritySensitiveFile f.filename),
       prAnalysis.commits.any
         (fun _ => hasBreakingChanges prAnalysis)]).filter (fun b => b)).length
  if riskFactors ≥ 3 then Level3.high
  else if riskFactors ≥ 2 then Level3.medium
  else Level3.low

/-- `generateTestingRequirements`. -/
def generateTestingRequirements (prAnalysis : PRAnalysis) : List String :=
  (if hasNewFeatures prAnalysis then
    ["Unit tests for new functionality"] else []) ++
  (if hasUIChanges prAnalysis then ["UI/Component testing"] else []) ++
  (if prAnalysis.files_changed.any
      (fun f => isSecuritySensitiveFile f.filename) then
    ["Security testing"] else []) ++
  (if prAnalysis.diff_summary.change_complexity = ChangeComplexity.high ∨
      prAnalysis.diff_summary.change_complexity = ChangeComplexity.very_high
   then ["Integration testing"] else [])

/-- `analyzeComplexity`. -/
def analyzeComplexity (prAnalysis : PRAnalysis) : ComplexityAnalysis :=
  { cognitive_complexity := calculateCognitiveComplexity prAnalysis
    change_risk := assessChangeRisk prAnalysis
    testing_requirements := generateTestingRequirements prAnalysis }

/-- `analyzeFocusArea`. -/
def analyzeFocusArea (focusArea : FocusArea) : List String :=
  match focusArea with
  | FocusArea.performance =>
    ["Review algorithmic complexity of changes",
     "Check for potential memory leaks",
     "Consider caching strategies if applicable"]
  | FocusArea.security =>
    ["Validate input sanitization",
     "Check for SQL injection vulnerabilities",
     "Review authentication and authorization changes"]
  | FocusArea.accessibility =>
    ["Ensure keyboard navigation works",
     "Verify ARIA labels are present",
     "Test with screen readers"]
  | FocusArea.maintainability =>
    ["Check code complexity metrics",
     "Ensure proper error handling",
     "Review code organization and structure"]
  | FocusArea.testing =>
    ["Add unit tests for new code",
     "Update integration tests if needed",
     "Consider edge case testing"]
  | _ => []

/-- `generateFocusAreaAnalysis` (the `Record` as an association list). -/
def generateFocusAreaAnalysis (focusAreas : List FocusArea) :
    List (FocusArea × List String) :=
  focusAreas.map fun area => (area, analyzeFocusArea area)

/-- `generateOverallAssessment`. -/
def generateOverallAssessment (prAnalysis : PRAnalysis)
    (codeQuality : QualityAssessment)
    (securityAssessment : SecurityAssessment) : String :=
  let part1 :=
    if codeQuality.score ≥ 8 then
      "This PR demonstrates high code quality with "
    else if codeQuality.score ≥ 6 then "This PR shows good code quality with "
    else "This PR has room for improvement in code quality with "
  let part2 := toString prAnalysis.files_changed.length ++
    " files modified (" ++ toString prAnalysis.diff_summary.total_changes ++
    " total line changes). "
  let part3 :=
    if securityAssessment.considerations.length > 0 then
      toString securityAssessment.considerations.length ++
      " security consideration" ++
      (if securityAssessment.considerations.length > 1 then "s" else "") ++
      " identified. "
    else ""
  let part4 :=
    if codeQuality.score ≥ 8 ∧ securityAssessment.risk_level = RiskLevel.low
    then "Ready for review and merge with minimal concerns."
    else if codeQuality.score ≥ 6 then
      "Requires minor improvements before merge."
    else "Requires significant improvements before merge."
  part1 ++ part2 ++ part3 ++ part4

/-- `calculateSummaryScore`: security-risk adjustment, best-practices ratio
term, clamp to `[0,10]` after rounding to one decimal
(`Math.round(score * 10) / 10`). -/
def calculateSummaryScore (codeQuality : QualityAssessment)
    (securityAssessment : SecurityAssessment)
    (bestPractices : BestPractices) : ℚ :=
  let score := codeQuality.score -
    (match securityAssessment.risk_level with
     | RiskLevel.critical => 3
     | RiskLevel.high => 2
     | RiskLevel.medium => 1
     | RiskLevel.low => 0)
  let followedPart : ℚ := (bestPractices.followed.length : ℚ) /
    ((bestPractices.followed.length : ℚ) +
      (bestPractices.needs_improvement.length : ℚ))
  let score := score + (followedPart - 0.5) * 2
  clamp010 ((jsRound (score * 10) : ℚ) / 10)

/-- `estimateReviewTime`: `Math.round(15 + 3·files + min(0.5·changes, 60))`. -/
def estimateReviewTime (prAnalysis : PRAnalysis) : ℤ :=
  let baseTime : ℚ := 15
  let fileTime : ℚ := (prAnalysis.files_changed.length : ℚ) * 3
  let changeTime : ℚ :=
    jsMin ((prAnalysis.diff_summary.total_changes : ℚ) * 0.5) 60
  jsRound (baseTime + fileTime + changeTime)

/-- `generatePRFeedback`: the public entry point of `FeedbackService`. -/
def generatePRFeedback (prAnalysis : PRAnalysis)
    (focusAreas : Option (List FocusArea)) : PRFeedback :=
  let codeQuality := assessCodeQuality prAnalysis
  let securityAssessment := analyzeSecurityConsiderations prAnalysis
  let suggestions := generateSuggestions prAnalysis focusAreas
  let bestPractices := checkBestPractices prAnalysis
  let complexityAnalysis := analyzeComplexity prAnalysis
  { overall_assessment :=
      generateOverallAssessment prAnalysis codeQuality securityAssessment
    summary_score :=
      calculateSummaryScore codeQuality securityAssessment bestPractices
    code_quality := codeQuality
    security_assessment := securityAssessment
    suggestions := suggestions
    best_practices := bestPractices
    focus_area_analysis := focusAreas.map generateFocusAreaAnalysis
    estimated_review_time := estimateReviewTime prAnalysis
    complexity_analysis := complexityAnalysis }

/-! ## Auxiliary definitions for the claims -/

/-- Rank of a grade, for stating monotonicity of `scoreToGrade`. -/
def gradeRank : Grade → Nat
  | Grade.F => 0
  | Grade.D => 1
  | Grade.C => 2
  | Grade.B => 3
  | Grade.A => 4

/-- The summary-score computation with the `critical` case removed from the
risk-level adjustment `switch` (in TS, a missing case adjusts by nothing).
Used to state that the `critical` branch of `calculateSummaryScore` is
unreachable through `generatePRFeedback`. -/
def calculateSummaryScoreNoCritical (codeQuality : QualityAssessment)
    (securityAssessment : SecurityAssessment)
    (bestPractices : BestPractices) : ℚ :=
  let score := codeQuality.score -
    (match securityAssessment.risk_level with
     | RiskLevel.high => 2
     | RiskLevel.medium => 1
     | _ => 0)
  let followedPart : ℚ := (bestPractices.followed.length : ℚ) /
    ((bestPractices.followed.length : ℚ) +
      (bestPractices.needs_improvement.length : ℚ))
  let score := score + (followedPart - 0.5) * 2
  clamp010 ((jsRound (score * 10) : ℚ) / 10)

/-- Spec-side reading of `is_merge_commit` in which all three tests are
case-insensitive (the source lower-cases only the `startsWith` test; the two
`includes` tests are case-sensitive). -/
def isMergeCommitAllCI (message : String) : Bool :=
  strStartsWith (String.mk (lowerList message.data)) "merge " ||
  containsCI message "merge pull request" ||
  containsCI message "merge branch"

/-- The single changed file of the end-to-end scenario: `src/auth.ts`,
300 additions and 250 deletions, status `modified`. -/
def c2file : GitHubFile :=
  { filename := "src/auth.ts"
    status := FileStatus.modified
    additions := 300
    deletions := 250
    patch := none }

/-- The `PRAnalysis` of the end-to-end scenario: the single `src/auth.ts`
file (550 total changes, normalized by the pipeline's `analyzeFiles` /
`generateDiffSummary`), a 10-character description, one ordinary commit, no
linked issues. -/
def c2pr : PRAnalysis :=
  { title := "Update authentication flow"
    description := "Short desc"
    author := "dev"
    state := PRState.opened
    draft := false
    files_changed := analyzeFiles [c2file]
    commits := [{ sha := "abc123"
                  message := "update"
                  author := "dev"
                  date := "2024-01-01"
                  url := ""
                  is_merge_commit := isMergeCommit "update"
                  verified := false }]
    diff_summary := generateDiffSummary [c2file]
    metadata := { created_at := ""
                  updated_at := ""
                  merged_at := none
                  closed_at := none
                  labels := []
                  assignees := []
                  reviewers := []
                  milestone := none
                  linked_issues := extractLinkedIssues "Short desc" } }

/-- A pull request touching 16 files (more than the best-practices file-count
threshold of 15), used to show the file-count check can contribute nothing. -/
def c5pr : PRAnalysis :=
  { title := "Refactor module layout across packages"
    description := "Moves files around."
    author := "dev"
    state := PRState.opened
    draft := false
    files_changed := analyzeFiles ((List.range 16).map fun i =>
      { filename := "src/mod" ++ toString i ++ ".ts"
        status := FileStatus.modified
        additions := 1
        deletions := 0
        patch := none })
    commits := [{ sha := "def456"
                  message := "chore: move files"
                  author := "dev"
                  date := "2024-01-02"
                  url := ""
                  is_merge_commit := isMergeCommit "chore: move files"
                  verified := false }]
    diff_summary := generateDiffSummary ((List.range 16).map fun i =>
      { filename := "src/mod" ++ toString i ++ ".ts"
        status := FileStatus.modified
        additions := 1
        deletions := 0
        patch := none })
    metadata := { created_at := ""
                  updated_at := ""
                  merged_at := none
                  closed_at := none
                  labels := []
                  assignees := []
                  reviewers := []
                  milestone := none
                  linked_issues := extractLinkedIssues "Moves files around." } }

/-! ## Helper lemmas -/

theorem clamp010_nonneg (x : ℚ) : 0 ≤ clamp010 x := by
  unfold clamp010 jsMax jsMin
  split_ifs <;> linarith

theorem clamp010_le_ten (x : ℚ) : clamp010 x ≤ 10 := by
  unfold clamp010 jsMax jsMin
  split_ifs <;> linarith

/-- A clamped tenth-of-an-integer is again a tenth of an integer. -/
theorem clamp010_tenth (m : ℤ) : ∃ k : ℤ, clamp010 ((m : ℚ) / 10) = (k : ℚ) / 10 := by
  unfold clamp010 jsMax jsMin
  by_cases h1 : (10 : ℚ) ≤ (m : ℚ) / 10
  · rw [if_pos h1, if_pos (by norm_num : (0 : ℚ) ≤ 10)]
    exact ⟨100, by norm_num⟩
  · rw [if_neg h1]
    by_cases h2 : (0 : ℚ) ≤ (m : ℚ) / 10
    · rw [if_pos h2]
      exact ⟨m, rfl⟩
    · rw [if_neg h2]
      exact ⟨0, by norm_num⟩

/-- The `code_quality` field produced by `generatePRFeedback`. -/
theorem generatePRFeedback_code_quality (prAnalysis : PRAnalysis)
    (focusAreas : Option (List FocusArea)) :
    (generatePRFeedback prAnalysis focusAreas).code_quality =
      assessCodeQuality prAnalysis := rfl

/-- The score of `assessCodeQuality` is the clamped raw score. -/
theorem assessCodeQuality_score (prAnalysis : PRAnalysis) :
    (assessCodeQuality prAnalysis).score = clamp010 (qualityScoreRaw prAnalysis) := rfl

/-- The summary score is a clamped tenth of an integer. -/
theorem calculateSummaryScore_tenth (codeQuality : QualityAssessment)
    (securityAssessment : SecurityAssessment) (bestPractices : BestPractices) :
    ∃ k : ℤ, calculateSummaryScore codeQuality securityAssessment bestPractices =
      (k : ℚ) / 10 := by
  have h : ∃ m : ℤ,
      calculateSummaryScore codeQuality securityAssessment bestPractices =
        clamp010 ((m : ℚ) / 10) := ⟨_, rfl⟩
  obtain ⟨m, hm⟩ := h
  obtain ⟨k, hk⟩ := clamp010_tenth m
  exact ⟨k, by rw [hm, hk]⟩

/-- Substring test as the mathematical infix relation. -/
theorem containsSub_infix_iff (hay needle : List Char) :
    containsSub hay needle = true ↔ needle <:+: hay := by
  unfold containsSub
  rw [List.any_eq_true]
  constructor
  · rintro ⟨t, ht, hpre⟩
    exact List.infix_iff_prefix_suffix.mpr
      ⟨t, List.isPrefixOf_iff_prefix.mp hpre, (List.mem_tails _ _).mp ht⟩
  · intro h
    obtain ⟨t, hpre, hsuf⟩ := List.infix_iff_prefix_suffix.mp h
    exact ⟨t, (List.mem_tails _ _).mpr hsuf, List.isPrefixOf_iff_prefix.mpr hpre⟩

/-- Folding `pushUnique` preserves `Nodup`. -/
theorem nodup_foldl_pushUnique (l : List ℕ) :
    ∀ acc : List ℕ, acc.Nodup → (l.foldl pushUnique acc).Nodup := by
  induction l with
  | nil => intro acc h; exact h
  | cons a l ih =>
    intro acc h
    refine ih (pushUnique acc a) ?_
    unfold pushUnique
    split_ifs with hmem
    · exact h
    · simpa [List.nodup_append] using ⟨h, hmem⟩

/-! ## Claim theorems -/

/-- C1: for every `PRAnalysis` input to `generatePRFeedback`, both
`code_quality.score` and `summary_score` lie in `[0, 10]`, and
`summary_score` is rounded to one decimal place (it is an integer multiple
of `1/10`). -/
theorem c1_scores_clamped (prAnalysis : PRAnalysis)
    (focusAreas : Option (List FocusArea)) :
    0 ≤ (generatePRFeedback prAnalysis focusAreas).code_quality.score ∧
    (generatePRFeedback prAnalysis focusAreas).code_quality.score ≤ 10 ∧
    0 ≤ (generatePRFeedback prAnalysis focusAreas).summary_score ∧
    (generatePRFeedback prAnalysis focusAreas).summary_score ≤ 10 ∧
    ∃ k : ℤ, (generatePRFeedback prAnalysis focusAreas).summary_score =
      (k : ℚ) / 10 := by
  have hq : (generatePRFeedback prAnalysis focusAreas).code_quality.score =
      clamp010 (qualityScoreRaw prAnalysis) := rfl
  have hs : (generatePRFeedback prAnalysis focusAreas).summary_score =
      calculateSummaryScore (assessCodeQuality prAnalysis)
        (analyzeSecurityConsiderations prAnalysis)
        (checkBestPractices prAnalysis) := rfl
  obtain ⟨k, hk⟩ := calculateSummaryScore_tenth (assessCodeQuality prAnalysis)
    (analyzeSecurityConsiderations prAnalysis) (checkBestPractices prAnalysis)
  have hs010 : ∃ m : ℤ,
      calculateSummaryScore (assessCodeQuality prAnalysis)
        (analyzeSecurityConsiderations prAnalysis)
        (checkBestPractices prAnalysis) = clamp010 ((m : ℚ) / 10) := ⟨_, rfl⟩
  obtain ⟨m, hm⟩ := hs010
  refine ⟨?_, ?_, ?_, ?_, ⟨k, by rw [hs, hk]⟩⟩
  · rw [hq]; exact clamp010_nonneg _
  · rw [hq]; exact clamp010_le_ten _
  · rw [hs, hm]; exact clamp010_nonneg _
  · rw [hs, hm]; exact clamp010_le_ten _

/-- C3: the letter grade is a pure step function of the score with bands
`≥9 → A`, `≥7 → B`, `≥5 → C`, `≥3 → D`, else `F`; it is monotonically
non-decreasing, and the boundary values 9, 7, 5 and 3 map to the higher
band. -/
theorem c3_grade_bands_monotone :
    (∀ s : ℚ, 9 ≤ s → scoreToGrade s = Grade.A) ∧
    (∀ s : ℚ, 7 ≤ s → s < 9 → scoreToGrade s = Grade.B) ∧
    (∀ s : ℚ, 5 ≤ s → s < 7 → scoreToGrade s = Grade.C) ∧
    (∀ s : ℚ, 3 ≤ s → s < 5 → scoreToGrade s = Grade.D) ∧
    (∀ s : ℚ, s < 3 → scoreToGrade s = Grade.F) ∧
    (∀ s t : ℚ, s ≤ t →
      gradeRank (scoreToGrade s) ≤ gradeRank (scoreToGrade t)) ∧
    scoreToGrade 9 = Grade.A ∧ scoreToGrade 7 = Grade.B ∧
    scoreToGrade 5 = Grade.C ∧ scoreToGrade 3 = Grade.D := by
  refine ⟨?_, ?_, ?_, ?_, ?_, ?_, ?_, ?_, ?_, ?_⟩
  · intro s h; unfold scoreToGrade; split_ifs <;> first | rfl | linarith
  · intro s h1 h2; unfold scoreToGrade; split_ifs <;> first | rfl | linarith
  · intro s h1 h2; unfold scoreToGrade; split_ifs <;> first | rfl | linarith
  · intro s h1 h2; unfold scoreToGrade; split_ifs <;> first | rfl | linarith
  · intro s h; unfold scoreToGrade; split_ifs <;> first | rfl | linarith
  · intro s t hst; unfold scoreToGrade
    split_ifs <;> simp [gradeRank] <;> linarith
  · norm_num [scoreToGrade]
  · norm_num [scoreToGrade]
  · norm_num [scoreToGrade]
  · norm_num [scoreToGrade]

/-- Witness for C3 at a concrete input. -/
theorem c3_grade_bands_monotone_witness : scoreToGrade 8 = Grade.B :=
  c3_grade_bands_monotone.2.1 8 (by norm_num) (by norm_num)

/-- C4: `change_complexity` is decided by the four tiers in order with first
match winning; `total_changes = 50, files_count = 5` gives `low` and
`total_changes = 51, files_count = 5` gives `medium`. -/
theorem c4_change_complexity_tiers :
    (∀ t f : Nat, t ≤ 50 ∧ f ≤ 5 → assessChangeComplexity t f =
      ChangeComplexity.low) ∧
    (∀ t f : Nat, ¬(t ≤ 50 ∧ f ≤ 5) →
      t ≤ 200 ∧ f ≤ 15 ∧ (t : ℚ) / (f : ℚ) ≤ 50 →
      assessChangeComplexity t f = ChangeComplexity.medium) ∧
    (∀ t f : Nat, ¬(t ≤ 50 ∧ f ≤ 5) →
      ¬(t ≤ 200 ∧ f ≤ 15 ∧ (t : ℚ) / (f : ℚ) ≤ 50) →
      t ≤ 500 ∧ f ≤ 25 →
      assessChangeComplexity t f = ChangeComplexity.high) ∧
    (∀ t f : Nat, ¬(t ≤ 50 ∧ f ≤ 5) →
      ¬(t ≤ 200 ∧ f ≤ 15 ∧ (t : ℚ) / (f : ℚ) ≤ 50) →
      ¬(t ≤ 500 ∧ f ≤ 25) →
      assessChangeComplexity t f = ChangeComplexity.very_high) ∧
    assessChangeComplexity 50 5 = ChangeComplexity.low ∧
    assessChangeComplexity 51 5 = ChangeComplexity.medium := by
  refine ⟨?_, ?_, ?_, ?_, ?_, ?_⟩
  · intro t f h; unfold assessChangeComplexity; rw [if_pos h]
  · intro t f h1 h2; unfold assessChangeComplexity; rw [if_neg h1, if_pos h2]
  · intro t f h1 h2 h3; unfold assessChangeComplexity
    rw [if_neg h1, if_neg h2, if_pos h3]
  · intro t f h1 h2 h3; unfold assessChangeComplexity
    rw [if_neg h1, if_neg h2, if_neg h3]
  · unfold assessChangeComplexity
    rw [if_pos (by norm_num)]
  · unfold assessChangeComplexity
    rw [if_neg (by norm_num), if_pos (by norm_num)]

/-- Witness for C4 at a concrete input. -/
theorem c4_change_complexity_tiers_witness :
    assessChangeComplexity 300 20 = ChangeComplexity.high :=
  c4_change_complexity_tiers.2.2.1 300 20 (by norm_num) (by norm_num)
    (by norm_num)

/-- C6: the risk level is `high` whenever a vulnerability was found,
otherwise `medium` when at least 3 considerations exist, otherwise `low`;
zero/zero gives `low` and one vulnerability gives `high` regardless of the
consideration count. -/
theorem c6_security_risk_level :
    (∀ c v : Nat, 0 < v → calculateSecurityRiskLevel c v = RiskLevel.high) ∧
    (∀ c : Nat, 3 ≤ c → calculateSecurityRiskLevel c 0 = RiskLevel.medium) ∧
    (∀ c : Nat, c < 3 → calculateSecurityRiskLevel c 0 = RiskLevel.low) ∧
    calculateSecurityRiskLevel 0 0 = RiskLevel.low ∧
    (∀ c : Nat, calculateSecurityRiskLevel c 1 = RiskLevel.high) := by
  refine ⟨?_, ?_, ?_, ?_, ?_⟩
  · intro c v h; unfold calculateSecurityRiskLevel
    rw [if_pos h]
  · intro c h; unfold calculateSecurityRiskLevel
    rw [if_neg (by omega), if_pos h]
  · intro c h; unfold calculateSecurityRiskLevel
    rw [if_neg (by omega), if_neg (by omega)]
    split_ifs <;> rfl
  · unfold calculateSecurityRiskLevel; norm_num
  · intro c; unfold calculateSecurityRiskLevel
    rw [if_pos (by omega)]

/-- Witness for C6 at a concrete input. -/
theorem c6_security_risk_level_witness :
    calculateSecurityRiskLevel 5 7 = RiskLevel.high :=
  c6_security_risk_level.1 5 7 (by omega)

/-- Sum of a `foldl` accumulation, used for C9. -/
theorem foldl_add_eq {α : Type} (g : α → ℕ) (l : List α) (a : ℕ) :
    l.foldl (fun s x => s + g x) a = a + (l.map g).sum := by
  induction l generalizing a with
  | nil => simp
  | cons x xs ih => simp [ih]; omega

/-- C9: `total_changes = total_additions + total_deletions` for every file
list (equivalently, the sum of per-file change counts); the empty list gives
all-zero totals and `change_complexity = low`. -/
theorem c9_diff_summary_totals :
    (∀ files : List GitHubFile, (generateDiffSummary files).total_changes =
      (generateDiffSummary files).total_additions +
        (generateDiffSummary files).total_deletions) ∧
    (∀ files : List GitHubFile, (generateDiffSummary files).total_changes =
      (files.map (fun f => f.additions + f.deletions)).sum) ∧
    (generateDiffSummary []).total_additions = 0 ∧
    (generateDiffSummary []).total_deletions = 0 ∧
    (generateDiffSummary []).total_changes = 0 ∧
    (generateDiffSummary []).files_count = 0 ∧
    (generateDiffSummary []).change_complexity = ChangeComplexity.low := by
  refine ⟨fun files => rfl, ?_, rfl, rfl, rfl, rfl, rfl⟩
  intro files
  show files.foldl (fun sum file => sum + file.additions) 0 +
      files.foldl (fun sum file => sum + file.deletions) 0 = _
  rw [foldl_add_eq, foldl_add_eq]
  induction files with
  | nil => simp
  | cons x xs ih => simp at ih ⊢; omega

/-- C5 counterexample: on a 16-file pull request the best-practices
file-count check contributes no entry at all — its entry (which only ever
goes to `followed`) appears in neither list. -/
theorem c5_file_count_check_contributes_nothing :
    ¬ ("Reasonable number of files changed" ∈
        (checkBestPractices c5pr).followed ∨
      "Reasonable number of files changed" ∈
        (checkBestPractices c5pr).needs_improvement) := by decide

/-- C5 (amended): the best-practices ratio denominator is always nonzero —
not because of the file-count check (which contributes nothing above 15
files) but because the conventional-commit, descriptive-title and
linked-issues checks each always contribute an entry, so the denominator is
at least 3 and the ratio term is well-defined. -/
theorem c5_denominator_positive (prAnalysis : PRAnalysis) :
    3 ≤ (checkBestPractices prAnalysis).followed.length +
      (checkBestPractices prAnalysis).needs_improvement.length ∧
    0 < (checkBestPractices prAnalysis).followed.length +
      (checkBestPractices prAnalysis).needs_improvement.length ∧
    ((checkBestPractices prAnalysis).followed.length : ℚ) +
      ((checkBestPractices prAnalysis).needs_improvement.length : ℚ) ≠ 0 := by
  have h3 : 3 ≤ (checkBestPractices prAnalysis).followed.length +
      (checkBestPractices prAnalysis).needs_improvement.length := by
    simp only [checkBestPractices]
    split_ifs <;> simp
  refine ⟨h3, by omega, ?_⟩
  intro hq
  rw [← Nat.cast_add] at hq
  have h0 : (checkBestPractices prAnalysis).followed.length +
      (checkBestPractices prAnalysis).needs_improvement.length = 0 :=
    Nat.cast_eq_zero.mp hq
  omega

/-- The security risk level can never be `critical`. -/
theorem calcRisk_ne_critical (c v : Nat) :
    calculateSecurityRiskLevel c v ≠ RiskLevel.critical := by
  unfold calculateSecurityRiskLevel
  split_ifs <;> simp

/-- C10: the security assessment never reports `critical` risk (its only
vulnerability has severity `medium`, and any vulnerability maps the risk to
`high`), so the `critical` branch of the summary-score adjustment (which
subtracts 3) is unreachable. -/
theorem c10_critical_unreachable :
    (∀ c v : Nat, calculateSecurityRiskLevel c v ≠ RiskLevel.critical) ∧
    (∀ prAnalysis : PRAnalysis,
      (analyzeSecurityConsiderations prAnalysis).risk_level ≠
        RiskLevel.critical) ∧
    (∀ prAnalysis : PRAnalysis,
      ∀ vuln ∈ (analyzeSecurityConsiderations prAnalysis).vulnerabilities_found,
        vuln.severity = RiskLevel.medium) ∧
    (∀ (codeQuality : QualityAssessment)
      (securityAssessment : SecurityAssessment)
      (bestPractices : BestPractices),
      securityAssessment.risk_level ≠ RiskLevel.critical →
      calculateSummaryScore codeQuality securityAssessment bestPractices =
        calculateSummaryScoreNoCritical codeQuality securityAssessment
          bestPractices) ∧
    (∀ (prAnalysis : PRAnalysis) (focusAreas : Option (List FocusArea)),
      (generatePRFeedback prAnalysis focusAreas).security_assessment.risk_level ≠
        RiskLevel.critical) := by
  refine ⟨calcRisk_ne_critical, ?_, ?_, ?_, ?_⟩
  · intro prAnalysis
    have h : (analyzeSecurityConsiderations prAnalysis).risk_level =
        calculateSecurityRiskLevel
          (analyzeSecurityConsiderations prAnalysis).considerations.length
          (analyzeSecurityConsiderations prAnalysis).vulnerabilities_found.length :=
      rfl
    rw [h]
    exact calcRisk_ne_critical _ _
  · intro prAnalysis vuln hv
    have h : (analyzeSecurityConsiderations prAnalysis).vulnerabilities_found =
        (if 0 < ((prAnalysis.commits.filter
            (fun commit => hasSuspiciousContent commit.message)).length) then
          [{ type := "Potential secret in commit message"
             severity := RiskLevel.medium
             description := "Commit messages may contain sensitive information"
             file := "commit-messages"
             line_number := none
             recommendation := "Review commit messages for exposed secrets" }]
         else []) := rfl
    rw [h] at hv
    split at hv
    · simp at hv
      rw [hv]
    · simp at hv
  · intro codeQuality securityAssessment bestPractices hne
    rcases securityAssessment with ⟨rl, cs, vs, rs⟩
    cases rl with
    | low => rfl
    | medium => rfl
    | high => rfl
    | critical => exact absurd rfl hne
  · intro prAnalysis focusAreas
    have h : (generatePRFeedback prAnalysis focusAreas).security_assessment =
        analyzeSecurityConsiderations prAnalysis := rfl
    rw [h]
    have h2 : (analyzeSecurityConsiderations prAnalysis).risk_level =
        calculateSecurityRiskLevel
          (analyzeSecurityConsiderations prAnalysis).considerations.length
          (analyzeSecurityConsiderations prAnalysis).vulnerabilities_found.length :=
      rfl
    rw [h2]
    exact calcRisk_ne_critical _ _

/-- Witness for C10 at a concrete input. -/
theorem c10_critical_unreachable_witness :
    calculateSummaryScore ⟨5, Grade.C, [], [], []⟩ ⟨RiskLevel.low, [], [], []⟩
        ⟨["x"], []⟩ =
      calculateSummaryScoreNoCritical ⟨5, Grade.C, [], [], []⟩
        ⟨RiskLevel.low, [], [], []⟩ ⟨["x"], []⟩ :=
  c10_critical_unreachable.2.2.2.1 _ _ _ (by decide)

/-- C8 counterexample: the two `includes` tests of `isMergeCommit` are
case-sensitive, so a message containing `MERGE PULL REQUEST` mid-string is
not flagged although the claim's all-case-insensitive reading flags it. -/
theorem c8_case_sensitivity_counterexample :
    isMergeCommit "Auto: MERGE PULL REQUEST #5" = false ∧
    isMergeCommitAllCI "Auto: MERGE PULL REQUEST #5" = true := by decide

/-- C8 (amended): `is_merge_commit` is true exactly when the lower-cased
message starts with `"merge "` (this test alone is case-insensitive), or the
message contains `"Merge pull request"` or `"Merge branch"` case-sensitively;
`"Merge pull request #5 from x/y"` yields `true`. -/
theorem c8_is_merge_commit_characterized :
    (∀ message : String,
      isMergeCommit message = true ↔
        ("merge ".data <+: lowerList message.data ∨
         "Merge pull request".data <:+: message.data ∨
         "Merge branch".data <:+: message.data)) ∧
    isMergeCommit "Merge pull request #5 from x/y" = true := by
  constructor
  · intro message
    unfold isMergeCommit strStartsWith strContains
    simp only [Bool.or_eq_true]
    rw [containsSub_infix_iff, containsSub_infix_iff,
      List.isPrefixOf_iff_prefix]
    exact or_assoc
  · decide

/-- Insertion sort of a duplicate-free list of naturals is strictly sorted
and duplicate-free. -/
theorem sorted_lt_insertionSort_of_nodup (l : List ℕ) (h : l.Nodup) :
    List.Sorted (· < ·) (List.insertionSort (· ≤ ·) l) ∧
      (List.insertionSort (· ≤ ·) l).Nodup := by
  have hs : List.Sorted (· ≤ ·) (List.insertionSort (· ≤ ·) l) :=
    List.sorted_insertionSort _ l
  have hn : (List.insertionSort (· ≤ ·) l).Nodup :=
    ((List.perm_insertionSort _ l).nodup_iff).mpr h
  exact ⟨(hs.and hn).imp (fun hab => lt_of_le_of_ne hab.1 hab.2), hn⟩

/-- C7: linked-issue extraction always yields a strictly ascending,
duplicate-free sequence; the body `"fixes #3 and #3 again, see #1"` yields
`[1, 3]`; and re-running the extraction on the same input yields the same
result. -/
theorem c7_linked_issues_sorted :
    (∀ body : String, List.Sorted (· < ·) (extractLinkedIssues body) ∧
      (extractLinkedIssues body).Nodup) ∧
    extractLinkedIssues "fixes #3 and #3 again, see #1" = [1, 3] ∧
    (∀ body : String, extractLinkedIssues body = extractLinkedIssues body) := by
  refine ⟨?_, by decide, fun _ => rfl⟩
  intro body
  have h : extractLinkedIssues body = List.insertionSort (· ≤ ·)
      ((scanPass1 body.data.length body.data ++
        scanPass2 body.data.length body.data).foldl pushUnique []) := rfl
  rw [h]
  exact sorted_lt_insertionSort_of_nodup _
    (nodup_foldl_pushUnique _ [] List.nodup_nil)

/-- The raw (pre-clamp) quality score of the end-to-end scenario:
`10 - 2 (large diff) - 2 (no tests) - 1 (no docs) - 1 (short description)
- 1 (one `xl` file) = 3`. -/
theorem c2pr_raw_score : qualityScoreRaw c2pr = 3 := by
  have h1 : c2pr.diff_summary.total_changes = 550 := rfl
  have h2 : c2pr.files_changed.length = 1 := rfl
  have h3 : hasTestFile c2pr = false := by decide
  have h4 : hasDocFile c2pr = false := by decide
  have h5 : c2pr.description.length = 10 := rfl
  have h6 : c2pr.commits.length = 1 := rfl
  have h7 : largeFilesCount c2pr = 1 := by decide
  unfold qualityScoreRaw
  rw [h1, h2, h3, h4, h5, h6, h7]
  norm_num

/-- The quality score of the end-to-end scenario is 3. -/
theorem c2pr_score : (generatePRFeedback c2pr none).code_quality.score = 3 := by
  rw [generatePRFeedback_code_quality, assessCodeQuality_score, c2pr_raw_score]
  norm_num [clamp010, jsMax, jsMin]

/-- The grade of the end-to-end scenario is D. -/
theorem c2pr_grade :
    (generatePRFeedback c2pr none).code_quality.grade = Grade.D := by
  have h : (generatePRFeedback c2pr none).code_quality.grade =
      scoreToGrade (clamp010 (qualityScoreRaw c2pr)) := rfl
  rw [h, c2pr_raw_score]
  norm_num [clamp010, jsMax, jsMin, scoreToGrade]

/-- C2 counterexample: the end-to-end scenario does not produce score 5,
grade C and `high` complexity — the code also deducts for missing
documentation and for the `xl`-sized file, and 550 changes exceed the `high`
tier's bound of 500. -/
theorem c2_scenario_claim_false :
    ¬ ((generatePRFeedback c2pr none).code_quality.score = 5 ∧
       (generatePRFeedback c2pr none).code_quality.grade = Grade.C ∧
       ((generatePRFeedback c2pr none).security_assessment.considerations.any
         (fun s => strContains s "src/auth.ts")) = true ∧
       c2pr.diff_summary.change_complexity = ChangeComplexity.high) := by
  intro h
  have hs := c2pr_score
  rw [h.1] at hs
  norm_num at hs

/-- C2 (amended): the end-to-end scenario yields quality deductions
large-diff (−2), no-tests (−2), no-documentation (−1), short-description
(−1) and one `xl` file (−1), so score 3 and grade D; the security
considerations include the auth-sensitive filename; and `change_complexity`
is `very_high` (550 changes exceed the `high` tier bound of 500). -/
theorem c2_scenario_actual :
    (generatePRFeedback c2pr none).code_quality.score = 3 ∧
    (generatePRFeedback c2pr none).code_quality.grade = Grade.D ∧
    ((generatePRFeedback c2pr none).security_assessment.considerations.any
      (fun s => strContains s "src/auth.ts")) = true ∧
    c2pr.diff_summary.change_complexity = ChangeComplexity.very_high :=
  ⟨c2pr_score, c2pr_grade, by decide, by decide⟩

end GithubMCP
